import Mathlib

/-!
Verification development for the AutoMember renewal reconciliation service
(`server.js` and `src/azure.js` / `src/sqlite.js`).

The JavaScript/SQL source is embedded shallowly:

* SQL `date` values and `DATEADD` arithmetic become an explicit calendar
  model (`Date`, `addMonths`, `nextDay`, `prevDay`).
* JS value coercion (`Number(x)`, truthiness, `x || y`) becomes the `JVal`
  type with `jsToNumber`, `truthy`, `jsOr`; `NaN` is modelled as `none`.
* JS `String.trim()` and T-SQL `LTRIM(RTRIM(...))` become `trimBy`-based
  functions on character lists.
* The unbounded `WHILE EXISTS` card-number generation loop is modelled by
  recursion over the explicit stream of random draws it consumes.
* Each HTTP handler becomes a pure function from an explicit server state
  (staging rows, audit rows, registry card rows) to a response and a new
  state, mirroring the statement order of the handler body.
-/

namespace AutoMember

/-! ## Calendar model (SQL `date`, `DATEADD`) -/

/-- A SQL `date` value (year, month 1..12, day 1..31). -/
structure Date where
  y : Nat
  m : Nat
  d : Nat
deriving DecidableEq, Repr

/-- Gregorian leap-year rule. -/
def isLeap (y : Nat) : Bool :=
  y % 4 == 0 && (y % 100 != 0 || y % 400 == 0)

/-- Number of days in a month. -/
def daysInMonth (y m : Nat) : Nat :=
  if m == 2 then (if isLeap y then 29 else 28)
  else if m == 4 || m == 6 || m == 9 || m == 11 then 30
  else 31

/-- `DATEADD(MONTH, n, dt)`: T-SQL clamps the day to the end of the target
month. -/
def addMonths (n : Nat) (dt : Date) : Date :=
  let t := dt.y * 12 + (dt.m - 1) + n
  let y := t / 12
  let m := t % 12 + 1
  ⟨y, m, min dt.d (daysInMonth y m)⟩

/-- `DATEADD(DAY, 1, dt)`. -/
def nextDay (dt : Date) : Date :=
  if dt.d < daysInMonth dt.y dt.m then ⟨dt.y, dt.m, dt.d + 1⟩
  else if dt.m < 12 then ⟨dt.y, dt.m + 1, 1⟩
  else ⟨dt.y + 1, 1, 1⟩

/-- `DATEADD(DAY, -1, dt)`. -/
def prevDay (dt : Date) : Date :=
  if 1 < dt.d then ⟨dt.y, dt.m, dt.d - 1⟩
  else if 1 < dt.m then ⟨dt.y, dt.m - 1, daysInMonth dt.y (dt.m - 1)⟩
  else ⟨dt.y - 1, 12, 31⟩

/-- Injective-on-valid-dates key realising calendar order. -/
def dateKey (dt : Date) : Nat := dt.y * 512 + dt.m * 32 + dt.d

/-- SQL `a <= b` on dates. -/
def dateLe (a b : Date) : Bool := dateKey a ≤ dateKey b

/-- A date is well-formed. -/
def validDate (dt : Date) : Bool :=
  1 ≤ dt.m && dt.m ≤ 12 && 1 ≤ dt.d && dt.d ≤ daysInMonth dt.y dt.m

/-- A SQL `datetime` at one-second granularity: a date plus seconds since
midnight (`sec < 86400`). -/
structure DateTime where
  date : Date
  sec : Nat
deriving DecidableEq, Repr

/-- Key realising `datetime` order. -/
def dtKey (t : DateTime) : Nat := dateKey t.date * 100000 + t.sec

/-- `DATEADD(SECOND, -1, t)`. -/
def dtMinusOneSecond (t : DateTime) : DateTime :=
  if t.sec = 0 then ⟨prevDay t.date, 86399⟩ else ⟨t.date, t.sec - 1⟩

/-! ## Trimming (JS `trim()`, T-SQL `LTRIM(RTRIM(...))`) -/

/-- Strip from both ends every character satisfying `p`. -/
def trimBy (p : Char → Bool) (cs : List Char) : List Char :=
  ((cs.dropWhile p).reverse.dropWhile p).reverse

/-- JS `s.trim()`: strips whitespace from both ends. -/
def jsTrim (s : String) : String := String.mk (trimBy Char.isWhitespace s.toList)

/-- T-SQL `LTRIM(RTRIM(s))`: strips spaces from both ends. -/
def sqlTrim (s : String) : String := String.mk (trimBy (fun c => c == ' ') s.toList)

/-! ## JS values and numeric coercion -/

/-- A JavaScript value as the webhook handler sees it.  `NaN` never appears
as a stored value here; it only arises as the `none` result of `jsToNumber`. -/
inductive JVal where
  | vStr (s : String)
  | vNum (q : Rat)
  | vNull
  | vUndefined
deriving DecidableEq, Repr

/-- JS truthiness of a `JVal`. -/
def truthy : JVal → Bool
  | .vStr s => !(s == "")
  | .vNum q => !(q == 0)
  | .vNull => false
  | .vUndefined => false

/-- JS `a || b`. -/
def jsOr (a b : JVal) : JVal := if truthy a then a else b

/-- Value of a nonempty digit string, accumulator style. -/
def digitsToNat : List Char → Nat → Nat
  | [], acc => acc
  | c :: cs, acc => digitsToNat cs (acc * 10 + (c.toNat - 48))

/-- All characters are decimal digits. -/
def allDigits (cs : List Char) : Bool := cs.all Char.isDigit

/-- Split a character list at the first dot, if any. -/
def splitAtDot : List Char → List Char × Option (List Char)
  | [] => ([], none)
  | c :: cs =>
    if c == '.' then ([], some cs)
    else
      let r := splitAtDot cs
      (c :: r.1, r.2)

/-- Parse an unsigned decimal numeral (`12`, `12.5`, `.5`, `5.`); `none` is
JS `NaN`. -/
def parseUnsigned (cs : List Char) : Option Rat :=
  match splitAtDot cs with
  | (intPart, none) =>
    if !intPart.isEmpty && allDigits intPart then
      some ((digitsToNat intPart 0 : Nat) : Rat)
    else none
  | (intPart, some fracPart) =>
    if (!intPart.isEmpty || !fracPart.isEmpty) && allDigits intPart && allDigits fracPart then
      some (((digitsToNat intPart 0 : Nat) : Rat) +
        ((digitsToNat fracPart 0 : Nat) : Rat) / ((10 : Rat) ^ fracPart.length))
    else none

/-- JS `Number(s)` for a string: trims, maps the empty string to `0`, parses
an optionally signed decimal numeral, and returns `none` (`NaN`) otherwise. -/
def jsStringToNumber (s : String) : Option Rat :=
  let t := jsTrim s
  if t == "" then some 0
  else
    match t.toList with
    | '-' :: cs => (parseUnsigned cs).map (fun q => -q)
    | '+' :: cs => parseUnsigned cs
    | cs => parseUnsigned cs

/-- JS `Number(v)`; `none` is `NaN`. -/
def jsToNumber : JVal → Option Rat
  | .vStr s => jsStringToNumber s
  | .vNum q => some q
  | .vNull => some 0
  | .vUndefined => none

/-- JS `s || null` on a nullable string: the empty string is falsy and
collapses to `null`. -/
def jsOrNull (o : Option String) : Option String :=
  match o with
  | some s => if s == "" then none else some s
  | none => none

/-! ## Ingestion adapter (`POST /webhooks/woocommerce`, server.js) -/

/-- One WooCommerce line item, restricted to the fields the handler reads. -/
structure LineItem where
  product_id : Nat
  name : Option String
  total : JVal
  categories : List String
  meta_data : List (String × JVal)
deriving DecidableEq, Repr

/-- The order's billing block. -/
structure Billing where
  first_name : Option String
  last_name : Option String
  email : Option String
  phone : Option String
deriving DecidableEq, Repr

/-- An inbound order event, restricted to the fields the handler reads.
`line_items = none` models a payload where the field is not an array. -/
structure Order where
  id : Nat
  billing : Option Billing
  line_items : Option (List LineItem)
deriving DecidableEq, Repr

/-- `meta_data.find(x => x?.key === 'term_months')?.value`: the value of the
`term_months` metadata entry, or JS `undefined` when absent. -/
def metaVal (li : LineItem) : JVal :=
  match li.meta_data.find? (fun x => x.1 == "term_months") with
  | some kv => kv.2
  | none => .vUndefined

/-- `termOf` from server.js: `Number(m?.value || 12)`. -/
def termOf (li : LineItem) : Option Rat :=
  jsToNumber (jsOr (metaVal li) (.vNum 12))

/-- `Number(li.total || 0)` from server.js. -/
def priceOf (li : LineItem) : Option Rat :=
  jsToNumber (jsOr li.total (.vNum 0))

/-- One row of `AutoMember_Staging`.  `termMonths`/`pricePaid` are the JS
numbers bound into the insert; `none` models `NaN`. -/
structure StagingRow where
  stagingId : String
  orderId : Nat
  orderCreatedAt : String
  firstName : String
  lastName : String
  email : Option String
  phone : Option String
  dob : Option String
  membershipProductId : Nat
  membershipProductName : String
  termMonths : Option Rat
  pricePaid : Option Rat
  status : String
  createdAt : String
  updatedAt : String
deriving DecidableEq, Repr

/-- The row built for one line item inside `rows = items.map(...)`. -/
def mkStagingRow (order : Order) (whenIso nowIso sid : String) (li : LineItem) :
    StagingRow :=
  { stagingId := sid
    orderId := order.id
    orderCreatedAt := whenIso
    firstName := (order.billing.bind (fun b => b.first_name)).getD ""
    lastName := (order.billing.bind (fun b => b.last_name)).getD ""
    email := jsOrNull (order.billing.bind (fun b => b.email))
    phone := jsOrNull (order.billing.bind (fun b => b.phone))
    dob := none
    membershipProductId := li.product_id
    membershipProductName := li.name.getD ""
    termMonths := termOf li
    pricePaid := priceOf li
    status := "Pending"
    createdAt := nowIso
    updatedAt := nowIso }

/-- The full `rows` array: one staging row per line item, each with its own
generated id (`ids i` models the i-th `uuid()` call). -/
def wooStagedRows (order : Order) (whenIso nowIso : String) (ids : Nat → String) :
    List StagingRow :=
  (order.line_items.getD []).mapIdx (fun i li => mkStagingRow order whenIso nowIso (ids i) li)

/-- Webhook handler response (after signature handling, which is skipped). -/
inductive WebhookResp where
  | okStaged (n : Nat)
  | okNoItems
deriving DecidableEq, Repr

/-- The `POST /webhooks/woocommerce` handler body: stages every line item of
the order in one transaction. -/
def wooWebhook (order : Order) (whenIso nowIso : String) (ids : Nat → String)
    (store : List StagingRow) : WebhookResp × List StagingRow :=
  let items := order.line_items.getD []
  if items.isEmpty then (.okNoItems, store)
  else
    let rows := wooStagedRows order whenIso nowIso ids
    (.okStaged rows.length, store ++ rows)

/-! ## Registry model (`dbo.CustomerLoyaltyCards`, azure.js) -/

/-- One row of `dbo.CustomerLoyaltyCards`, restricted to the columns the
source reads or writes. -/
structure Card where
  customerID : Nat
  cardNo : String
  dtExpiry : DateTime
  dtRevoked : Option Nat
  isActive : Bool
  isRevoked : Option Bool
  dtCreated : Nat
deriving DecidableEq, Repr

/-- `CustomerID = @CustomerID AND (IsRevoked = 0 OR IsRevoked IS NULL)`. -/
def cardLivePred (cid : Nat) (c : Card) : Bool :=
  c.customerID == cid && (c.isRevoked == some false || c.isRevoked == none)

/-- `a` ranks strictly below `b` under `ORDER BY DTExpiry DESC, DTCreated
DESC` (so `b` is preferred). -/
def cardBelow (a b : Card) : Bool :=
  dtKey a.dtExpiry < dtKey b.dtExpiry ||
    (dtKey a.dtExpiry == dtKey b.dtExpiry && a.dtCreated < b.dtCreated)

/-- `SELECT TOP(1) ... ORDER BY DTExpiry DESC, DTCreated DESC`. -/
def pickLatest : List Card → Option Card
  | [] => none
  | c :: cs =>
    match pickLatest cs with
    | none => some c
    | some b => if cardBelow c b then some b else some c

/-- `@CurrentExpiry`: latest live card's expiry, converted to `date`. -/
def currentExpiry (registry : List Card) (cid : Nat) : Option Date :=
  (pickLatest (registry.filter (cardLivePred cid))).map (fun c => c.dtExpiry.date)

/-- `EXISTS (SELECT 1 FROM dbo.CustomerLoyaltyCards WHERE CardNo = no)`. -/
def cardNoExists (registry : List Card) (no : String) : Bool :=
  registry.any (fun c => c.cardNo == no)

/-! ## Renewal window and card-number allocation (azure.js `approveRenewal`) -/

/-- The `IF @CurrentExpiry IS NOT NULL AND @CurrentExpiry >= @Today` block:
yields `(@StartDate, @EndDate)`.  Both branches hard-code 12 months. -/
def computeWindow (today : Date) (cur : Option Date) : Date × Date :=
  match cur with
  | some e => if dateLe today e then (nextDay e, addMonths 12 e) else (today, addMonths 12 today)
  | none => (today, addMonths 12 today)

/-- `RIGHT(s, 6)` on the decimal numeral of `n`. -/
def right6 (n : Nat) : String :=
  let s := toString n
  s.drop (s.length - 6)

/-- `CONCAT('CSC-', FORMAT(SYSUTCDATETIME(),'yyyy'), '-', RIGHT(ABS(CHECKSUM(NEWID())), 6))`. -/
def genCardNo (year : Nat) (n : Nat) : String :=
  "CSC-" ++ toString year ++ "-" ++ right6 n

/-- The generate / `WHILE EXISTS` regenerate loop, driven by the stream of
random draws it consumes; `none` models exhausting the modelled stream. -/
def genLoop (year : Nat) (registry : List Card) : List Nat → Option String
  | [] => none
  | n :: ns =>
    let c := genCardNo year n
    if cardNoExists registry c then genLoop year registry ns else some c

/-- JS side of `approveRenewal`:
`(providedCardNo || '').trim() || null`. -/
def normProvided (p : Option String) : Option String :=
  let t := jsTrim (p.getD "")
  if t == "" then none else some t

/-- Failure modes of the `approveRenewal` batch. -/
inductive RenewErr where
  | duplicateCardNumber
  | generatorExhausted
deriving DecidableEq, Repr

/-- The final `SELECT @CustomerID, @CardNo, CONVERT(date, @EndDate)`. -/
structure RenewOutcome where
  customerID : Nat
  cardNo : String
  newExpiry : Date
deriving DecidableEq, Repr

/-- azure.js `approveRenewal`, JS normalisation plus the SQL batch.  `today`
is `CONVERT(date, SYSUTCDATETIME())`, `year` the current year, `nowTs` the
`SYSUTCDATETIME()` creation stamp, `rand` the stream of random draws the
generation loop consumes.  Returns the batch result and the registry after
the batch (unchanged whenever the batch throws, since the `INSERT` is its
last statement). -/
def approveRenewal (today : Date) (year nowTs : Nat) (customerID : Nat)
    (providedCardNo : Option String) (rand : List Nat) (registry : List Card) :
    Except RenewErr RenewOutcome × List Card :=
  let provided := normProvided providedCardNo
  let w := computeWindow today (currentExpiry registry customerID)
  let endDate := w.2
  let resolved : Except RenewErr String :=
    match provided with
    | none => (genLoop year registry rand).elim (.error .generatorExhausted) .ok
    | some c =>
      if sqlTrim c == "" then (genLoop year registry rand).elim (.error .generatorExhausted) .ok
      else if cardNoExists registry c then .error .duplicateCardNumber
      else .ok c
  match resolved with
  | .error e => (.error e, registry)
  | .ok no =>
    let newCard : Card :=
      { customerID := customerID
        cardNo := no
        dtExpiry := dtMinusOneSecond ⟨nextDay endDate, 0⟩
        dtRevoked := none
        isActive := true
        isRevoked := some false
        dtCreated := nowTs }
    (.ok ⟨customerID, no, endDate⟩, registry ++ [newCard])

/-! ## Candidate matcher (azure.js `findCandidates`) -/

/-- One row of `dbo.Customers`, restricted to the columns the query reads. -/
structure Customer where
  customerID : Nat
  firstName : String
  surname : String
  email : Option String
  telNo : Option String
  mobile : Option String
  birthday : Option String
deriving DecidableEq, Repr

/-- The raw arguments of `findCandidates` before the `|| null` binding. -/
structure MatchParams where
  firstName : Option String
  lastName : Option String
  email : Option String
  phone : Option String
  dob : Option String
deriving DecidableEq, Repr

/-- ASCII lowercasing of one character. -/
def lowerChar (c : Char) : Char :=
  if 65 ≤ c.toNat && c.toNat ≤ 90 then Char.ofNat (c.toNat + 32) else c

/-- T-SQL `LOWER(s)` on the ASCII range. -/
def sqlLower (s : String) : String := String.mk (s.toList.map lowerChar)

/-- `LOWER(LTRIM(RTRIM(s)))`. -/
def normEmail (s : String) : String := sqlLower (sqlTrim s)

/-- `REPLACE(REPLACE(REPLACE(s,'+',''),' ',''),'-','')`. -/
def stripPhone (s : String) : String :=
  String.mk (s.toList.filter (fun c => !(c == '+' || c == ' ' || c == '-')))

/-- `@Email IS NOT NULL AND LOWER(LTRIM(RTRIM(cu.Email))) = LOWER(LTRIM(RTRIM(@Email)))`
(a `NULL` customer email compares unknown, hence false). -/
def emailBranch (pe : Option String) (cu : Customer) : Bool :=
  match pe, cu.email with
  | some p, some e => normEmail e == normEmail p
  | _, _ => false

/-- The phone disjunct: `@Phone IS NOT NULL AND` stripped
`ISNULL(cu.Mobile, cu.TelNo)` equals stripped `@Phone`. -/
def phoneBranch (pp : Option String) (cu : Customer) : Bool :=
  match pp with
  | none => false
  | some p =>
    match (match cu.mobile with | some m => some m | none => cu.telNo) with
    | some t => stripPhone t == stripPhone p
    | none => false

/-- `@DOB IS NOT NULL AND cu.Birthday = @DOB`. -/
def dobBranch (pd : Option String) (cu : Customer) : Bool :=
  match pd, cu.birthday with
  | some p, some b => b == p
  | _, _ => false

/-- `cu.FirstName = @FirstName AND cu.Surname = @LastName` under SQL null
semantics: a `NULL` parameter makes the comparison unknown, hence false. -/
def nameBranch (pf pl : Option String) (cu : Customer) : Bool :=
  match pf, pl with
  | some f, some l => cu.firstName == f && cu.surname == l
  | _, _ => false

/-- The query's `WHERE` disjunction. -/
def matchPred (p : MatchParams) (cu : Customer) : Bool :=
  emailBranch p.email cu || phoneBranch p.phone cu ||
    dobBranch p.dob cu || nameBranch p.firstName p.lastName cu

/-- The `ORDER BY` rank: `1` for an exact-email match, else `2`. -/
def candRank (p : MatchParams) (cu : Customer) : Nat :=
  if emailBranch p.email cu then 1 else 2

/-- The `ORDER BY` relation: rank, then `CustomerID ASC`. -/
def candLe (p : MatchParams) (a b : Customer) : Bool :=
  candRank p a < candRank p b ||
    (candRank p a == candRank p b && a.customerID ≤ b.customerID)

/-- The effective parameters after the `|| null` input bindings. -/
def normParams (raw : MatchParams) : MatchParams :=
  ⟨jsOrNull raw.firstName, jsOrNull raw.lastName, jsOrNull raw.email,
    jsOrNull raw.phone, jsOrNull raw.dob⟩

/-- azure.js `findCandidates`: bind parameters (`x || null`), filter by the
`WHERE` disjunction, order by exact-email-first then `CustomerID ASC`, take
`TOP (5)`. -/
def findCandidates (raw : MatchParams) (customers : List Customer) : List Customer :=
  let p := normParams raw
  (List.insertionSort (fun a b => candLe p a b = true)
    (customers.filter (matchPred p))).take 5

/-! ## Server state and the admin routes (server.js) -/

/-- `AutoMember_Audit.Action` values the handlers write. -/
inductive AuditAction where
  | upserted
  | renewed
  | rejected
  | errored
deriving DecidableEq, Repr

/-- The structured content of the `DiffJson` payload. -/
inductive Diff where
  | outcome (customerID : Nat) (cardNo : String)
  | errMsg (msg : String)
  | reasonText (reason : String)
deriving DecidableEq, Repr

/-- One row of `AutoMember_Audit`. -/
structure AuditRow where
  stagingId : String
  action : AuditAction
  actor : String
  diff : Diff
  createdAt : String
deriving DecidableEq, Repr

/-- The SQLite-side server state. -/
structure ServerState where
  staging : List StagingRow
  audit : List AuditRow
deriving DecidableEq, Repr

/-- `SELECT * FROM AutoMember_Staging WHERE StagingId = ? AND Status = 'Pending'`. -/
def findPending (staging : List StagingRow) (id : String) : Option StagingRow :=
  staging.find? (fun r => r.stagingId == id && r.status == "Pending")

/-- `UPDATE AutoMember_Staging SET Status = s, UpdatedAt = now WHERE StagingId = ?`:
note the update filters by `StagingId` only, with no status guard. -/
def updateStatus (staging : List StagingRow) (id s now : String) : List StagingRow :=
  staging.map (fun r => if r.stagingId == id then { r with status := s, updatedAt := now } else r)

/-- Responses of the approve route. -/
inductive ApproveResp where
  | ok (outcome : RenewOutcome)
  | notPendingOrMissing
  | badRequest
  | serverError (msg : String)
deriving DecidableEq, Repr

/-- The commit half of the approve route: on a registry success, mark the
row `Approved` and audit `Upserted`/`Renewed`; on a thrown registry error,
audit `Error` and leave the staging rows untouched. -/
def approveCommit (st : ServerState) (row : StagingRow) (actor now : String)
    (createNew : Bool) (regResult : Except String RenewOutcome) :
    ApproveResp × ServerState :=
  match regResult with
  | .ok outcome =>
    let staging' := updateStatus st.staging row.stagingId "Approved" now
    let entry : AuditRow :=
      ⟨row.stagingId, if createNew then .upserted else .renewed, actor,
        .outcome outcome.customerID outcome.cardNo, now⟩
    (.ok outcome, ⟨staging', st.audit ++ [entry]⟩)
  | .error e =>
    (.serverError e, ⟨st.staging, st.audit ++ [⟨row.stagingId, .errored, actor, .errMsg e, now⟩]⟩)

/-- `POST /api/staging/:id/approve` with the registry call abstracted as
`regOf` (the awaited `createCustomerAndApprove` / `approveRenewal` result,
`Except.error` modelling a throw). -/
def approveRoute (st : ServerState) (id actor now : String) (createNew : Bool)
    (chosenCustomerID : Option Nat) (regOf : StagingRow → Except String RenewOutcome) :
    ApproveResp × ServerState :=
  match findPending st.staging id with
  | none => (.notPendingOrMissing, st)
  | some row =>
    if createNew then approveCommit st row actor now true (regOf row)
    else
      match chosenCustomerID with
      | none => (.badRequest, st)
      | some _ => approveCommit st row actor now false (regOf row)

/-- Message of the SQL `THROW 51001`. -/
def renewErrMsg : RenewErr → String
  | .duplicateCardNumber => "Provided CardNo already exists"
  | .generatorExhausted => "generator exhausted"

/-- `POST /api/staging/:id/approve` composed with the concrete registry
operation.  `newCustomerID` models the `SCOPE_IDENTITY()` of the
`createNew` path's customer insert. -/
def approveFull (st : ServerState) (registry : List Card) (id actor now : String)
    (createNew : Bool) (chosenCustomerID : Option Nat) (providedCardNo : Option String)
    (today : Date) (year nowTs : Nat) (rand : List Nat) (newCustomerID : Nat) :
    ApproveResp × ServerState × List Card :=
  match findPending st.staging id with
  | none => (.notPendingOrMissing, st, registry)
  | some row =>
    if createNew then
      let r := approveRenewal today year nowTs newCustomerID providedCardNo rand registry
      match r.1 with
      | .ok outcome =>
        let c := approveCommit st row actor now true (.ok outcome)
        (c.1, c.2, r.2)
      | .error e =>
        let c := approveCommit st row actor now true (.error (renewErrMsg e))
        (c.1, c.2, r.2)
    else
      match chosenCustomerID with
      | none => (.badRequest, st, registry)
      | some cid =>
        let r := approveRenewal today year nowTs cid providedCardNo rand registry
        match r.1 with
        | .ok outcome =>
          let c := approveCommit st row actor now false (.ok outcome)
          (c.1, c.2, r.2)
        | .error e =>
          let c := approveCommit st row actor now false (.error (renewErrMsg e))
          (c.1, c.2, r.2)

/-- Responses of the reject route. -/
inductive RejectResp where
  | okAck
  | notPendingOrMissing
deriving DecidableEq, Repr

/-- `POST /api/staging/:id/reject`.  The handler never reads the request
body, so the caller's `reason` is taken and ignored, and the audit diff
always carries the empty reason string. -/
def rejectRoute (st : ServerState) (id : String) (actorEmail : Option String)
    (_reason : Option String) (now : String) : RejectResp × ServerState :=
  match findPending st.staging id with
  | none => (.notPendingOrMissing, st)
  | some row =>
    let staging' := updateStatus st.staging id "Rejected" now
    (.okAck, ⟨staging',
      st.audit ++ [⟨row.stagingId, .rejected, actorEmail.getD "staff", .reasonText "", now⟩]⟩)

/-! ## Helper lemmas -/

theorem one_le_daysInMonth (y m : Nat) : 1 ≤ daysInMonth y m := by
  unfold daysInMonth
  split
  · split <;> omega
  · split <;> omega

theorem validDate_addMonths (n : Nat) (dt : Date) (h : validDate dt = true) :
    validDate (addMonths n dt) = true := by
  obtain ⟨y, m, d⟩ := dt
  unfold validDate at h ⊢
  simp only [Bool.and_eq_true, decide_eq_true_eq] at h ⊢
  obtain ⟨⟨⟨hm1, hm2⟩, hd1⟩, hd2⟩ := h
  unfold addMonths
  dsimp only
  have hmod := Nat.mod_lt (y * 12 + (m - 1) + n) (show 0 < 12 by omega)
  have h29 := one_le_daysInMonth ((y * 12 + (m - 1) + n) / 12)
    ((y * 12 + (m - 1) + n) % 12 + 1)
  refine ⟨⟨⟨by omega, by omega⟩, by omega⟩, by omega⟩

theorem prevDay_nextDay (dt : Date) (h : validDate dt = true) :
    prevDay (nextDay dt) = dt := by
  obtain ⟨y, m, d⟩ := dt
  unfold validDate at h
  simp only [Bool.and_eq_true, decide_eq_true_eq] at h
  obtain ⟨⟨⟨hm1, hm2⟩, hd1⟩, hd2⟩ := h
  unfold nextDay prevDay
  dsimp only
  split
  · simp only [show 1 < d + 1 by omega, if_true]
    simp only [Nat.add_sub_cancel]
  · split
    · rename_i hlt hmlt
      simp only [show ¬ (1 : Nat) < 1 by omega, if_false, show 1 < m + 1 by omega, if_true]
      simp only [Nat.add_sub_cancel]
      have : d = daysInMonth y m := by omega
      rw [this]
    · rename_i hlt hmlt
      have hm : m = 12 := by omega
      have h31 : daysInMonth y 12 = 31 := rfl
      have hd : d = 31 := by rw [hm, h31] at hd2; rw [hm] at hlt; rw [h31] at hlt; omega
      simp only [show ¬ (1 : Nat) < 1 by omega, if_false]
      simp only [Nat.add_sub_cancel]
      rw [hm, hd]

theorem dtMinusOneSecond_endOfDay (e : Date) (h : validDate e = true) :
    dtMinusOneSecond ⟨nextDay e, 0⟩ = ⟨e, 86399⟩ := by
  simp [dtMinusOneSecond, prevDay_nextDay e h]

theorem trimBy_exists_not (p : Char → Bool) (cs : List Char) (h : trimBy p cs ≠ []) :
    ∃ x ∈ trimBy p cs, p x = false := by
  unfold trimBy at h ⊢
  have hne : (cs.dropWhile p).reverse.dropWhile p ≠ [] := by
    intro h0
    exact h (by rw [h0]; rfl)
  refine ⟨((cs.dropWhile p).reverse.dropWhile p).head hne, ?_, ?_⟩
  · rw [List.mem_reverse]
    exact List.head_mem hne
  · exact List.head_dropWhile_not p _ hne

theorem trimBy_ne_nil_of_exists (p : Char → Bool) (cs : List Char)
    (h : ∃ x ∈ cs, p x = false) : trimBy p cs ≠ [] := by
  obtain ⟨x, hx, hpx⟩ := h
  unfold trimBy
  intro h0
  have h1 : (cs.dropWhile p).reverse.dropWhile p = [] := by
    have := congrArg List.reverse h0
    simpa using this
  rw [List.dropWhile_eq_nil_iff] at h1
  have hxd : x ∈ cs.dropWhile p := by
    have hsplit := List.takeWhile_append_dropWhile p cs
    have hx' : x ∈ cs.takeWhile p ++ cs.dropWhile p := by rw [hsplit]; exact hx
    rcases List.mem_append.1 hx' with h2 | h2
    · exact absurd (List.mem_takeWhile_imp h2) (by simp [hpx])
    · exact h2
  have := h1 x (by simpa using hxd)
  simp [hpx] at this

theorem trimBy_eq_nil_of_all (p : Char → Bool) (cs : List Char)
    (h : ∀ x ∈ cs, p x = true) : trimBy p cs = [] := by
  unfold trimBy
  rw [List.dropWhile_eq_nil_iff.2 h]
  rfl

theorem string_mk_ne_empty_iff (l : List Char) : String.mk l ≠ "" ↔ l ≠ [] := by
  constructor
  · intro h h0
    subst h0
    exact h rfl
  · intro h h0
    exact h (congrArg String.toList h0)

theorem sqlTrim_jsTrim_ne_empty (s : String) (h : jsTrim s ≠ "") :
    sqlTrim (jsTrim s) ≠ "" := by
  unfold jsTrim at h ⊢
  unfold sqlTrim
  rw [string_mk_ne_empty_iff] at h ⊢
  have hex := trimBy_exists_not Char.isWhitespace s.toList h
  obtain ⟨x, hx, hpx⟩ := hex
  apply trimBy_ne_nil_of_exists
  refine ⟨x, hx, ?_⟩
  by_cases hsp : x = ' '
  · rw [hsp] at hpx
    simp [Char.isWhitespace] at hpx
  · simp [hsp]

theorem genLoop_spec (year : Nat) (registry : List Card) (rand : List Nat) (c : String)
    (h : genLoop year registry rand = some c) :
    cardNoExists registry c = false ∧ ∃ n ∈ rand, c = genCardNo year n := by
  induction rand with
  | nil => simp [genLoop] at h
  | cons n ns ih =>
    unfold genLoop at h
    by_cases hx : cardNoExists registry (genCardNo year n) = true
    · rw [if_pos hx] at h
      obtain ⟨h1, n', hn', hc⟩ := ih h
      exact ⟨h1, n', List.mem_cons_of_mem _ hn', hc⟩
    · rw [if_neg hx] at h
      cases h
      exact ⟨by simpa using hx, n, List.mem_cons_self _ _, rfl⟩

theorem findPending_some_spec (staging : List StagingRow) (id : String) (row : StagingRow)
    (h : findPending staging id = some row) :
    row ∈ staging ∧ row.stagingId = id ∧ row.status = "Pending" := by
  have h1 := List.find?_some h
  have h2 := List.mem_of_find?_eq_some h
  simp only [Bool.and_eq_true, beq_iff_eq] at h1
  exact ⟨h2, h1.1, h1.2⟩

theorem updateStatus_mem (staging : List StagingRow) (id s now : String) (r' : StagingRow)
    (h : r' ∈ updateStatus staging id s now) (hid : r'.stagingId = id) :
    r'.status = s ∧ r'.updatedAt = now := by
  unfold updateStatus at h
  rw [List.mem_map] at h
  obtain ⟨y, hy, hfy⟩ := h
  by_cases hc : y.stagingId = id
  · rw [if_pos (by simpa [beq_iff_eq] using hc)] at hfy
    rw [← hfy]
    exact ⟨rfl, rfl⟩
  · rw [if_neg (by simpa [beq_iff_eq] using hc)] at hfy
    rw [← hfy] at hid
    exact absurd hid hc

theorem findPending_updateStatus_ne (staging : List StagingRow) (id s now : String)
    (hs : s ≠ "Pending") :
    findPending (updateStatus staging id s now) id = none := by
  rw [findPending, List.find?_eq_none]
  intro x hx
  simp only [Bool.and_eq_true, beq_iff_eq, not_and]
  intro hxid
  have := updateStatus_mem staging id s now x hx hxid
  rw [this.1]
  exact hs

theorem findPending_none_of_unique (staging : List StagingRow) (id : String) (r : StagingRow)
    (hu : staging.Pairwise (fun a b => a.stagingId ≠ b.stagingId)) (hr : r ∈ staging)
    (hid : r.stagingId = id) (hnp : r.status ≠ "Pending") :
    findPending staging id = none := by
  rw [findPending, List.find?_eq_none]
  intro x hx
  simp only [Bool.and_eq_true, beq_iff_eq, not_and]
  intro hxid
  have hxr : x = r := by
    by_contra hne
    have hsymm : Symmetric (fun a b : StagingRow => a.stagingId ≠ b.stagingId) := by
      intro a b hab hba
      exact hab hba.symm
    exact (hu.forall hsymm hx hr hne) (by rw [hxid, hid])
  rw [hxr]
  exact hnp

theorem candLe_trans (p : MatchParams) :
    ∀ a b c, candLe p a b = true → candLe p b c = true → candLe p a c = true := by
  intro a b c h1 h2
  simp only [candLe, Bool.or_eq_true, Bool.and_eq_true, decide_eq_true_eq, beq_iff_eq] at h1 h2 ⊢
  omega

theorem candLe_total (p : MatchParams) :
    ∀ a b, (candLe p a b || candLe p b a) = true := by
  intro a b
  simp only [candLe, Bool.or_eq_true, Bool.and_eq_true, decide_eq_true_eq, beq_iff_eq]
  omega

/-! ## Concrete fixtures -/

/-- A live card of customer 7 expiring 2025-08-01 (end of day). -/
def oldCard : Card :=
  { customerID := 7, cardNo := "OLD-1", dtExpiry := ⟨⟨2025, 8, 1⟩, 86399⟩,
    dtRevoked := none, isActive := true, isRevoked := some false, dtCreated := 5 }

/-- A pending staging record whose term length is 6 months. -/
def rowTerm6 : StagingRow :=
  { stagingId := "S1", orderId := 1001, orderCreatedAt := "2025-06-01T08:00:00.000Z",
    firstName := "Ada", lastName := "Lovelace", email := some "ada@example.org",
    phone := none, dob := none, membershipProductId := 9,
    membershipProductName := "Gold Membership", termMonths := some 6,
    pricePaid := some 50, status := "Pending",
    createdAt := "2025-06-01T08:00:01.000Z", updatedAt := "2025-06-01T08:00:01.000Z" }

/-- A line item that belongs to no product category at all. -/
def itemNoCategory : LineItem :=
  { product_id := 42, name := some "Gift Voucher", total := .vStr "10.00",
    categories := [], meta_data := [] }

/-- An order whose only line item is `itemNoCategory`. -/
def orderNoCategory : Order :=
  { id := 2001,
    billing := some ⟨some "Ada", some "Lovelace", some "ada@example.org", none⟩,
    line_items := some [itemNoCategory] }

/-- A line item with a non-numeric `term_months` value and a non-numeric
total. -/
def itemBadMeta : LineItem :=
  { product_id := 9, name := some "Gold Membership", total := .vStr "abc",
    categories := ["Membership"], meta_data := [("term_months", .vStr "six")] }

/-- A live card of customer 7 with card number `X1`. -/
def cardX1 : Card :=
  { customerID := 7, cardNo := "X1", dtExpiry := ⟨⟨2026, 1, 1⟩, 86399⟩,
    dtRevoked := none, isActive := true, isRevoked := some false, dtCreated := 1 }

/-- A registry customer whose stored email matches `x@y.z` up to case and
surrounding spaces. -/
def custEmail : Customer :=
  ⟨1, "Quinn", "Reed", some " X@Y.Z ", none, none, none⟩

/-- A registry customer who matches only by exact (first, last) name. -/
def custName : Customer :=
  ⟨3, "Ada", "Lovelace", none, none, none, none⟩

/-- Query fields as the staging detail route supplies them. -/
def rawAda : MatchParams :=
  ⟨some "Ada", some "Lovelace", some "x@y.z", none, none⟩

/-- The same query but with an empty email field. -/
def rawAdaNoEmail : MatchParams :=
  ⟨some "Ada", some "Lovelace", some "", none, none⟩

/-- A staging record that already reached the terminal `Rejected` state. -/
def rowRejected : StagingRow :=
  { stagingId := "SR", orderId := 1002, orderCreatedAt := "2025-06-02T08:00:00.000Z",
    firstName := "Bob", lastName := "Smith", email := none, phone := none,
    dob := none, membershipProductId := 9, membershipProductName := "Gold Membership",
    termMonths := some 12, pricePaid := some 50, status := "Rejected",
    createdAt := "2025-06-02T08:00:01.000Z", updatedAt := "2025-06-03T09:00:00.000Z" }

/-! ## Claim theorems -/

/-- C1, counterexample: approving the staging record `rowTerm6` (term length
6 months) for customer 7, whose current card expires on the future date
2025-08-01, issues a card expiring `2025-08-01 + 12 months = 2026-08-01`,
not `2025-08-01 + 6 months = 2026-02-01` as the claim requires: the term is
hard-coded to 12 months and the record's `TermMonths` is never consulted. -/
theorem C1_counterexample :
    rowTerm6.termMonths = some 6 ∧
    currentExpiry [oldCard] 7 = some ⟨2025, 8, 1⟩ ∧
    dateLe ⟨2025, 6, 1⟩ ⟨2025, 8, 1⟩ = true ∧
    (approveFull ⟨[rowTerm6], []⟩ [oldCard] "S1" "op@example.org" "t1" false (some 7) none
        ⟨2025, 6, 1⟩ 2025 99 [123456] 0).1 =
      .ok ⟨7, "CSC-2025-123456", ⟨2026, 8, 1⟩⟩ ∧
    addMonths 6 ⟨2025, 8, 1⟩ = ⟨2026, 2, 1⟩ ∧
    (⟨2026, 8, 1⟩ : Date) ≠ ⟨2026, 2, 1⟩ := by
  refine ⟨rfl, rfl, by decide, rfl, by decide, by decide⟩

/-- C1 (amended): for every approval against a customer whose current
non-revoked card has latest expiry `D` with `D` today-or-later, the window
is `start = D + 1 day`, `end = D + 12 months` — the term is the fixed
constant 12, regardless of the staging record's `TermMonths`. -/
theorem C1_renewal_window (today : Date) (year nowTs cid : Nat) (provided : Option String)
    (rand : List Nat) (registry : List Card) (D : Date) (out : RenewOutcome)
    (hcur : currentExpiry registry cid = some D)
    (hle : dateLe today D = true)
    (hok : (approveRenewal today year nowTs cid provided rand registry).1 = .ok out) :
    out.customerID = cid ∧ out.newExpiry = addMonths 12 D ∧
      (computeWindow today (some D)).1 = nextDay D := by
  have hwin : computeWindow today (some D) = (nextDay D, addMonths 12 D) := by
    simp only [computeWindow]
    rw [if_pos hle]
  unfold approveRenewal at hok
  rw [hcur] at hok
  dsimp only at hok
  rw [hwin] at hok
  dsimp only at hok
  split at hok
  · simp at hok
  · rename_i no heq
    simp only [Except.ok.injEq] at hok
    rw [← hok]
    exact ⟨rfl, rfl, by rw [hwin]⟩

/-- Witness for `C1_renewal_window` at the `oldCard` fixture. -/
theorem C1_renewal_window_witness :
    (RenewOutcome.mk 7 "CSC-2025-123456" ⟨2026, 8, 1⟩).customerID = 7 ∧
    (RenewOutcome.mk 7 "CSC-2025-123456" ⟨2026, 8, 1⟩).newExpiry = addMonths 12 ⟨2025, 8, 1⟩ ∧
    (computeWindow ⟨2025, 6, 1⟩ (some ⟨2025, 8, 1⟩)).1 = nextDay ⟨2025, 8, 1⟩ :=
  C1_renewal_window ⟨2025, 6, 1⟩ 2025 99 7 none [123456] [oldCard] ⟨2025, 8, 1⟩
    ⟨7, "CSC-2025-123456", ⟨2026, 8, 1⟩⟩ rfl (by decide) rfl

/-- C2, counterexample: approving the 6-month staging record for customer 5,
who has no card at all, yields `end = today + 12 months`, not
`today + 6 months` as the claim's `termMonths` requires. -/
theorem C2_counterexample :
    rowTerm6.termMonths = some 6 ∧
    currentExpiry [] 5 = none ∧
    (approveFull ⟨[rowTerm6], []⟩ [] "S1" "op@example.org" "t1" false (some 5) none
        ⟨2025, 6, 1⟩ 2025 99 [123456] 0).1 =
      .ok ⟨5, "CSC-2025-123456", ⟨2026, 6, 1⟩⟩ ∧
    addMonths 6 ⟨2025, 6, 1⟩ = ⟨2025, 12, 1⟩ ∧
    (⟨2026, 6, 1⟩ : Date) ≠ ⟨2025, 12, 1⟩ := by
  refine ⟨rfl, rfl, rfl, by decide, by decide⟩

/-- C2 (amended): when the customer has no live card, or the latest live
card's expiry is before today, the window is `start = today`,
`end = today + 12 months` (the term is the fixed constant 12, not the
staging record's `TermMonths`), and the card row inserted into the registry
stores as its expiry the final instant (last second) of the end date. -/
theorem C2_renewal_window (today : Date) (year nowTs cid : Nat) (provided : Option String)
    (rand : List Nat) (registry : List Card) (out : RenewOutcome)
    (hvalid : validDate today = true)
    (hcur : currentExpiry registry cid = none ∨
      ∃ D, currentExpiry registry cid = some D ∧ dateLe today D = false)
    (hok : (approveRenewal today year nowTs cid provided rand registry).1 = .ok out) :
    out.customerID = cid ∧ out.newExpiry = addMonths 12 today ∧
      computeWindow today (currentExpiry registry cid) = (today, addMonths 12 today) ∧
      (approveRenewal today year nowTs cid provided rand registry).2 =
        registry ++ [⟨cid, out.cardNo, ⟨addMonths 12 today, 86399⟩, none,
          true, some false, nowTs⟩] := by
  have hwin : computeWindow today (currentExpiry registry cid) = (today, addMonths 12 today) := by
    rcases hcur with h | ⟨D, hD, hlt⟩
    · rw [h]
      rfl
    · rw [hD]
      simp only [computeWindow]
      rw [if_neg (by simp [hlt])]
  have hexp : dtMinusOneSecond ⟨nextDay (addMonths 12 today), 0⟩ =
      ⟨addMonths 12 today, 86399⟩ :=
    dtMinusOneSecond_endOfDay _ (validDate_addMonths 12 today hvalid)
  unfold approveRenewal at hok ⊢
  rw [hwin] at hok ⊢
  dsimp only at hok ⊢
  split at hok
  · simp at hok
  · rename_i no heq
    simp only [Except.ok.injEq] at hok
    rw [← hok]
    dsimp only
    rw [hexp]
    exact ⟨rfl, rfl, rfl, rfl⟩

/-- Witness for `C2_renewal_window`: customer 5 with an empty registry. -/
theorem C2_renewal_window_witness :
    (RenewOutcome.mk 5 "CSC-2025-123456" ⟨2026, 6, 1⟩).customerID = 5 ∧
    (RenewOutcome.mk 5 "CSC-2025-123456" ⟨2026, 6, 1⟩).newExpiry = addMonths 12 ⟨2025, 6, 1⟩ ∧
    computeWindow ⟨2025, 6, 1⟩ (currentExpiry [] 5) = (⟨2025, 6, 1⟩, addMonths 12 ⟨2025, 6, 1⟩) ∧
    (approveRenewal ⟨2025, 6, 1⟩ 2025 99 5 none [123456] []).2 =
      [] ++ [⟨5, (RenewOutcome.mk 5 "CSC-2025-123456" ⟨2026, 6, 1⟩).cardNo,
        ⟨addMonths 12 ⟨2025, 6, 1⟩, 86399⟩, none, true, some false, 99⟩] :=
  C2_renewal_window ⟨2025, 6, 1⟩ 2025 99 5 none [123456] []
    ⟨5, "CSC-2025-123456", ⟨2026, 6, 1⟩⟩ (by decide) (Or.inl rfl) rfl

/-- C3, counterexample: the webhook handler stages a record even for a line
item that belongs to no product category at all (the code accepts every
line item with no category filter), whereas the claim requires that only
membership-category items produce a StagingRecord. -/
theorem C3_counterexample :
    itemNoCategory.categories = [] ∧
    (wooWebhook orderNoCategory "w0" "n0" (fun _ => "U1") []).2 =
      [mkStagingRow orderNoCategory "w0" "n0" "U1" itemNoCategory] ∧
    (wooWebhook orderNoCategory "w0" "n0" (fun _ => "U1") []).2.length = 1 :=
  ⟨rfl, rfl, rfl⟩

/-- C3 (amended): for every inbound order event, the ingestion adapter
creates exactly one StagingRecord per line item, regardless of the item's
categories: no line item is ever filtered out or ignored. -/
theorem C3_all_items_staged (order : Order) (whenIso nowIso : String) (ids : Nat → String)
    (store : List StagingRow) :
    (wooWebhook order whenIso nowIso ids store).2 =
      store ++ wooStagedRows order whenIso nowIso ids ∧
    (wooStagedRows order whenIso nowIso ids).length = (order.line_items.getD []).length := by
  constructor
  · unfold wooWebhook
    dsimp only
    split
    · rename_i hemp
      have hrows : wooStagedRows order whenIso nowIso ids = [] := by
        unfold wooStagedRows
        rw [List.isEmpty_iff.1 hemp]
        rfl
      rw [hrows, List.append_nil]
    · rfl
  · unfold wooStagedRows
    exact List.length_mapIdx

/-- C7, counterexample: a `term_months` metadata value that is present but
non-numeric (`"six"`) yields `Number("six") = NaN`, not the default 12 the
claim requires; likewise a non-numeric total yields `NaN`, not 0. -/
theorem C7_counterexample :
    metaVal itemBadMeta = .vStr "six" ∧
    termOf itemBadMeta = none ∧
    termOf itemBadMeta ≠ some 12 ∧
    itemBadMeta.total = .vStr "abc" ∧
    priceOf itemBadMeta = none ∧
    priceOf itemBadMeta ≠ some 0 := by
  refine ⟨rfl, rfl, by decide, rfl, rfl, by decide⟩

/-- C7 (amended): `TermMonths` is `Number(value)` when the `term_months`
metadata value is present and truthy (which is `NaN`, not 12, when the
value is a non-numeric nonempty string), and 12 when the key is absent or
its value is falsy; `PricePaid` is `Number(total)` when the total is
truthy, and 0 when it is absent or falsy. -/
theorem C7_term_price (li : LineItem) :
    (metaVal li = .vUndefined → termOf li = some 12) ∧
    (truthy (metaVal li) = false → termOf li = some 12) ∧
    (truthy (metaVal li) = true → termOf li = jsToNumber (metaVal li)) ∧
    (∀ s, metaVal li = .vStr s → s ≠ "" → jsStringToNumber s = none → termOf li = none) ∧
    (truthy li.total = false → priceOf li = some 0) ∧
    (truthy li.total = true → priceOf li = jsToNumber li.total) := by
  refine ⟨?_, ?_, ?_, ?_, ?_, ?_⟩
  · intro h
    simp [termOf, jsOr, h, truthy, jsToNumber]
  · intro h
    simp [termOf, jsOr, h, jsToNumber]
  · intro h
    simp [termOf, jsOr, h]
  · intro s hs hne hnum
    have ht : truthy (JVal.vStr s) = true := by
      simp [truthy, hne]
    simp [termOf, jsOr, hs, ht, jsToNumber, hnum]
  · intro h
    simp [priceOf, jsOr, h, jsToNumber]
  · intro h
    simp [priceOf, jsOr, h]

/-- Witness for `C7_term_price`: an item with no metadata defaults to a
12-month term, and its truthy total is numerically coerced. -/
theorem C7_term_price_witness :
    termOf itemNoCategory = some 12 ∧
    priceOf itemNoCategory = jsToNumber itemNoCategory.total :=
  ⟨(C7_term_price itemNoCategory).1 rfl,
    (C7_term_price itemNoCategory).2.2.2.2.2 rfl⟩

/-- C5: a caller-supplied card number that is non-blank after trimming and
already exists in the registry makes `approveRenewal` fail with
`DuplicateCardNumber` (`THROW 51001`) and leave the registry unchanged:
the check precedes the only `INSERT` of the batch. -/
theorem C5_duplicate_rejected (today : Date) (year nowTs cid : Nat) (s : String)
    (rand : List Nat) (registry : List Card)
    (hnb : jsTrim s ≠ "")
    (hdup : cardNoExists registry (jsTrim s) = true) :
    approveRenewal today year nowTs cid (some s) rand registry =
      (.error .duplicateCardNumber, registry) := by
  have hnp : normProvided (some s) = some (jsTrim s) := by
    simp only [normProvided, Option.getD_some]
    rw [if_neg (by simp [hnb])]
  have hsql : (sqlTrim (jsTrim s) == "") = false := by
    simp only [beq_eq_false_iff_ne, ne_eq]
    exact sqlTrim_jsTrim_ne_empty s hnb
  unfold approveRenewal
  rw [hnp]
  dsimp only
  rw [hsql]
  simp only [Bool.false_eq_true, if_false, hdup, if_true]

/-- Witness for `C5_duplicate_rejected`: the provided number `" X1 "` trims
to the existing card `X1`. -/
theorem C5_duplicate_rejected_witness :
    approveRenewal ⟨2025, 6, 1⟩ 2025 99 7 (some " X1 ") [5] [cardX1] =
      (.error .duplicateCardNumber, [cardX1]) :=
  C5_duplicate_rejected ⟨2025, 6, 1⟩ 2025 99 7 " X1 " [5] [cardX1]
    (by decide) (by decide)

/-- C10: a card number that is absent, empty, or whitespace-only is treated
as not supplied: the duplicate check is skipped (so the call never fails
with `DuplicateCardNumber`), and any issued card number is a freshly
generated `CSC-<year>-<suffix>` value that did not exist in the registry. -/
theorem C10_blank_card (today : Date) (year nowTs cid : Nat) (p : Option String)
    (rand : List Nat) (registry : List Card)
    (hblank : p = none ∨ ∃ s, p = some s ∧ ∀ c ∈ s.toList, c.isWhitespace = true) :
    (approveRenewal today year nowTs cid p rand registry).1 ≠
      .error .duplicateCardNumber ∧
    ∀ out, (approveRenewal today year nowTs cid p rand registry).1 = .ok out →
      cardNoExists registry out.cardNo = false ∧
        ∃ n ∈ rand, out.cardNo = genCardNo year n := by
  have hnp : normProvided p = none := by
    rcases hblank with h | ⟨s, hp, hws⟩
    · rw [h]
      rfl
    · rw [hp]
      simp only [normProvided, Option.getD_some]
      have hz : jsTrim s = "" := by
        unfold jsTrim
        rw [trimBy_eq_nil_of_all Char.isWhitespace s.toList hws]
      rw [hz]
      rfl
  unfold approveRenewal
  rw [hnp]
  dsimp only
  cases hgen : genLoop year registry rand with
  | none =>
    simp only [hgen, Option.elim]
    exact ⟨by simp, by simp⟩
  | some c =>
    have hspec := genLoop_spec year registry rand c hgen
    simp only [hgen, Option.elim]
    constructor
    · simp
    · intro out hout
      simp only [Except.ok.injEq] at hout
      rw [← hout]
      exact hspec

/-- Witness for `C10_blank_card`: the whitespace-only provided number
`"   "` leads to the generated card `CSC-2025-123456`, which is fresh. -/
theorem C10_blank_card_witness :
    (approveRenewal ⟨2025, 6, 1⟩ 2025 99 7 (some "   ") [123456] [cardX1]).1 ≠
      .error .duplicateCardNumber ∧
    cardNoExists [cardX1] "CSC-2025-123456" = false ∧
    ∃ n ∈ [123456], ("CSC-2025-123456" : String) = genCardNo 2025 n :=
  ⟨(C10_blank_card ⟨2025, 6, 1⟩ 2025 99 7 (some "   ") [123456] [cardX1]
      (Or.inr ⟨"   ", rfl, by decide⟩)).1,
    (C10_blank_card ⟨2025, 6, 1⟩ 2025 99 7 (some "   ") [123456] [cardX1]
      (Or.inr ⟨"   ", rfl, by decide⟩)).2 ⟨7, "CSC-2025-123456", ⟨2027, 1, 1⟩⟩ rfl⟩

/-- C4, counterexample: the commit statement
`UPDATE AutoMember_Staging SET Status='Approved', UpdatedAt=? WHERE StagingId=?`
filters by `StagingId` only: run against a record whose status is already
`Rejected`, it still succeeds and overwrites the status with `Approved`, so
the update itself is not guarded by `Status = 'Pending'` as the claim
states (the Pending check lives only in the preceding `SELECT`). -/
theorem C4_counterexample :
    rowRejected.status = "Rejected" ∧
    (updateStatus [rowRejected] "SR" "Approved" "t2").map (fun r => r.status) =
      ["Approved"] :=
  ⟨rfl, rfl⟩

/-- C4 (amended): a record that is not `Pending` makes both the approve and
the reject route fail with the NotPending response and change nothing; the
guard is the lookup `SELECT ... AND Status='Pending'` before the registry
call, not the commit `UPDATE` itself (which filters only by `StagingId`).
Under this sequential model each record still leaves `Pending` at most
once: after a successful approval, any further approve or reject attempt
fails with NotPending and leaves the state unchanged. -/
theorem C4_transition_guard
    (st : ServerState) (id actor now actor2 now2 now3 : String)
    (createNew createNew2 : Bool) (cc cc2 : Option Nat)
    (regOf regOf2 : StagingRow → Except String RenewOutcome)
    (ae rsn : Option String) :
    (∀ r, st.staging.Pairwise (fun a b => a.stagingId ≠ b.stagingId) →
      r ∈ st.staging → r.stagingId = id → r.status ≠ "Pending" →
      approveRoute st id actor now createNew cc regOf = (.notPendingOrMissing, st) ∧
      rejectRoute st id ae rsn now = (.notPendingOrMissing, st)) ∧
    (∀ row cid o, findPending st.staging id = some row → cc = some cid →
      regOf row = .ok o →
      (approveRoute st id actor now false cc regOf).1 = .ok o ∧
      approveRoute (approveRoute st id actor now false cc regOf).2 id actor2 now2
          createNew2 cc2 regOf2 =
        (.notPendingOrMissing, (approveRoute st id actor now false cc regOf).2) ∧
      rejectRoute (approveRoute st id actor now false cc regOf).2 id ae rsn now3 =
        (.notPendingOrMissing, (approveRoute st id actor now false cc regOf).2)) := by
  constructor
  · intro r hu hr hid hnp
    have hnone : findPending st.staging id = none :=
      findPending_none_of_unique st.staging id r hu hr hid hnp
    constructor
    · unfold approveRoute
      rw [hnone]
    · unfold rejectRoute
      rw [hnone]
  · intro row cid o hfp hcc hreg
    have hrid : row.stagingId = id := (findPending_some_spec _ _ _ hfp).2.1
    subst hrid
    have hstep : approveRoute st row.stagingId actor now false cc regOf =
        (.ok o, ⟨updateStatus st.staging row.stagingId "Approved" now,
          st.audit ++ [⟨row.stagingId, .renewed, actor, .outcome o.customerID o.cardNo, now⟩]⟩) := by
      unfold approveRoute
      rw [hfp, hcc]
      dsimp only
      unfold approveCommit
      rw [hreg]
      simp
    have hnone2 : findPending (updateStatus st.staging row.stagingId "Approved" now)
        row.stagingId = none :=
      findPending_updateStatus_ne st.staging row.stagingId "Approved" now (by decide)
    refine ⟨by rw [hstep], ?_, ?_⟩
    · rw [hstep]
      unfold approveRoute
      dsimp only
      rw [hnone2]
    · rw [hstep]
      unfold rejectRoute
      dsimp only
      rw [hnone2]

/-- Witness for `C4_transition_guard` on the already-rejected record. -/
theorem C4_transition_guard_witness :
    approveRoute ⟨[rowRejected], []⟩ "SR" "op@example.org" "t4" false (some 7)
        (fun _ => .error "x") = (.notPendingOrMissing, ⟨[rowRejected], []⟩) ∧
    rejectRoute ⟨[rowRejected], []⟩ "SR" (some "op@example.org") none "t4" =
      (.notPendingOrMissing, ⟨[rowRejected], []⟩) :=
  (C4_transition_guard ⟨[rowRejected], []⟩ "SR" "op@example.org" "t4" "a2" "t5" "t6"
      false false (some 7) (some 7) (fun _ => .error "x") (fun _ => .error "x")
      (some "op@example.org") none).1 rowRejected (by simp) (by simp) rfl (by decide)

/-- C6: if the registry operation throws during an approval of a Pending
record, the handler appends exactly one `Error` audit entry carrying the
error detail, leaves the staging rows (and hence the record's `Pending`
status) unchanged, and a retry of the same approval call on the resulting
state succeeds when the registry call does. -/
theorem C6_error_audit (st : ServerState) (id actor now actor2 now2 : String)
    (createNew : Bool) (cc : Option Nat)
    (regOf regOf2 : StagingRow → Except String RenewOutcome)
    (row : StagingRow) (msg : String)
    (hfp : findPending st.staging id = some row)
    (hreg : regOf row = .error msg)
    (hsel : createNew = true ∨ (createNew = false ∧ ∃ cid, cc = some cid)) :
    row.status = "Pending" ∧
    approveRoute st id actor now createNew cc regOf =
      (.serverError msg,
        ⟨st.staging, st.audit ++ [⟨row.stagingId, .errored, actor, .errMsg msg, now⟩]⟩) ∧
    (∀ o, regOf2 row = .ok o →
      (approveRoute ⟨st.staging,
          st.audit ++ [⟨row.stagingId, .errored, actor, .errMsg msg, now⟩]⟩
        id actor2 now2 createNew cc regOf2).1 = .ok o) := by
  refine ⟨(findPending_some_spec _ _ _ hfp).2.2, ?_, ?_⟩
  · unfold approveRoute
    rw [hfp]
    rcases hsel with h | ⟨h, cid, hcc⟩
    · rw [h]
      dsimp only
      unfold approveCommit
      rw [hreg]
      simp
    · rw [h, hcc]
      dsimp only
      unfold approveCommit
      rw [hreg]
      simp
  · intro o hok
    unfold approveRoute
    rw [hfp]
    rcases hsel with h | ⟨h, cid, hcc⟩
    · rw [h]
      dsimp only
      unfold approveCommit
      rw [hok]
      simp
    · rw [h, hcc]
      dsimp only
      unfold approveCommit
      rw [hok]
      simp

/-- Witness for `C6_error_audit`: a thrown registry call on the pending
record `S1`, then a successful retry. -/
theorem C6_error_audit_witness :
    rowTerm6.status = "Pending" ∧
    approveRoute ⟨[rowTerm6], []⟩ "S1" "op@example.org" "t6" false (some 7)
        (fun _ => .error "boom") =
      (.serverError "boom",
        ⟨[rowTerm6], [] ++ [⟨"S1", .errored, "op@example.org", .errMsg "boom", "t6"⟩]⟩) ∧
    (approveRoute ⟨[rowTerm6], [] ++ [⟨"S1", .errored, "op@example.org", .errMsg "boom", "t6"⟩]⟩
        "S1" "op2" "t7" false (some 7)
        (fun _ => .ok ⟨7, "C1", ⟨2026, 6, 1⟩⟩)).1 = .ok ⟨7, "C1", ⟨2026, 6, 1⟩⟩ := by
  have h := C6_error_audit ⟨[rowTerm6], []⟩ "S1" "op@example.org" "t6" "op2" "t7"
    false (some 7) (fun _ => .error "boom") (fun _ => .ok ⟨7, "C1", ⟨2026, 6, 1⟩⟩)
    rowTerm6 "boom" rfl rfl (Or.inr ⟨rfl, 7, rfl⟩)
  exact ⟨h.1, h.2.1, h.2.2 ⟨7, "C1", ⟨2026, 6, 1⟩⟩ rfl⟩

/-- C9, counterexample: the reject handler never reads the request body, so
a reject call carrying the reason `"customer cancelled"` still records the
audit diff `reason = ""` — the caller's free-text reason is not carried in
the diff payload as the claim states. -/
theorem C9_counterexample :
    (rejectRoute ⟨[rowTerm6], []⟩ "S1" (some "op@example.org")
        (some "customer cancelled") "t9").2.audit =
      [⟨"S1", .rejected, "op@example.org", .reasonText "", "t9"⟩] ∧
    Diff.reasonText "" ≠ Diff.reasonText "customer cancelled" :=
  ⟨rfl, by decide⟩

/-- C9 (amended): a reject call on a Pending staging record transitions it
to `Rejected` with `updatedAt` stamped and appends exactly one `Rejected`
audit entry — but its diff payload always carries the empty reason string,
ignoring whatever reason the caller supplied; there is no registry
interaction (the handler takes no registry input at all). -/
theorem C9_reject (st : ServerState) (id now : String) (ae rsn : Option String)
    (row : StagingRow)
    (hfp : findPending st.staging id = some row) :
    row.status = "Pending" ∧
    rejectRoute st id ae rsn now =
      (.okAck, ⟨updateStatus st.staging id "Rejected" now,
        st.audit ++ [⟨row.stagingId, .rejected, ae.getD "staff", .reasonText "", now⟩]⟩) ∧
    (∀ r', r' ∈ (rejectRoute st id ae rsn now).2.staging → r'.stagingId = id →
      r'.status = "Rejected" ∧ r'.updatedAt = now) := by
  have hroute : rejectRoute st id ae rsn now =
      (.okAck, ⟨updateStatus st.staging id "Rejected" now,
        st.audit ++ [⟨row.stagingId, .rejected, ae.getD "staff", .reasonText "", now⟩]⟩) := by
    unfold rejectRoute
    rw [hfp]
  refine ⟨(findPending_some_spec _ _ _ hfp).2.2, hroute, ?_⟩
  intro r' hr' hid
  rw [hroute] at hr'
  exact updateStatus_mem st.staging id "Rejected" now r' hr' hid

/-- Witness for `C9_reject` on the pending record `S1`. -/
theorem C9_reject_witness :
    rowTerm6.status = "Pending" ∧
    rejectRoute ⟨[rowTerm6], []⟩ "S1" (some "op@example.org") (some "why") "t9" =
      (.okAck, ⟨updateStatus [rowTerm6] "S1" "Rejected" "t9",
        [] ++ [⟨"S1", .rejected, "op@example.org", .reasonText "", "t9"⟩]⟩) :=
  ⟨(C9_reject ⟨[rowTerm6], []⟩ "S1" "t9" (some "op@example.org") (some "why")
      rowTerm6 rfl).1,
    (C9_reject ⟨[rowTerm6], []⟩ "S1" "t9" (some "op@example.org") (some "why")
      rowTerm6 rfl).2.1⟩

/-- C8: `findCandidates` returns at most 5 customers; every returned
customer is a registry customer satisfying the `WHERE` disjunction (in
which a field bound as `NULL` — including one supplied empty, via
`x || null` — disables its branch rather than matching everything); and
the returned list is ordered exact-email-matches-first with ties broken by
ascending customer identifier (the `Pairwise candLe` conjunct: an
email-rank-2 row never precedes an email-rank-1 row, and within a rank the
identifiers ascend). -/
theorem C8_find_candidates (raw : MatchParams) (customers : List Customer) :
    (findCandidates raw customers).length ≤ 5 ∧
    (∀ c, c ∈ findCandidates raw customers →
      c ∈ customers ∧ matchPred (normParams raw) c = true) ∧
    (findCandidates raw customers).Pairwise
      (fun a b => candLe (normParams raw) a b = true) ∧
    ((raw.email = none ∨ raw.email = some "") →
      ∀ cu, emailBranch (normParams raw).email cu = false) := by
  refine ⟨?_, ?_, ?_, ?_⟩
  · unfold findCandidates
    rw [List.length_take]
    exact min_le_left _ _
  · intro c hc
    unfold findCandidates at hc
    have h1 := List.mem_of_mem_take hc
    rw [List.mem_insertionSort] at h1
    rw [List.mem_filter] at h1
    exact h1
  · unfold findCandidates
    haveI htot : IsTotal Customer (fun a b => candLe (normParams raw) a b = true) := by
      refine ⟨fun a b => ?_⟩
      have h := candLe_total (normParams raw) a b
      rw [Bool.or_eq_true] at h
      exact h
    haveI htr : IsTrans Customer (fun a b => candLe (normParams raw) a b = true) :=
      ⟨fun a b c => candLe_trans (normParams raw) a b c⟩
    refine List.Pairwise.sublist (List.take_sublist _ _) ?_
    exact List.sorted_insertionSort _ _
  · intro h cu
    have hn : (normParams raw).email = none := by
      unfold normParams
      rcases h with h | h <;> rw [h] <;> rfl
    rw [hn]
    cases cu.email <;> rfl

/-- Witness for `C8_find_candidates`: the trimmed, case-folded email match
`custEmail` is returned (ahead of the name-only match), and an empty email
field disables the email branch. -/
theorem C8_find_candidates_witness :
    (findCandidates rawAda [custName, custEmail]).length ≤ 5 ∧
    (custEmail ∈ [custName, custEmail] ∧
      matchPred (normParams rawAda) custEmail = true) ∧
    emailBranch (normParams rawAdaNoEmail).email custName = false :=
  ⟨(C8_find_candidates rawAda [custName, custEmail]).1,
    (C8_find_candidates rawAda [custName, custEmail]).2.1 custEmail (by decide),
    (C8_find_candidates rawAdaNoEmail [custName, custEmail]).2.2.2 (Or.inr rfl) custName⟩

end AutoMember
